import Mathlib

/-!
Shallow embedding of `src/app.py` (2D Shirt Pattern Generator).

Numbers are modelled as rationals (the Python code only performs field
operations on the input measurements with rational constants).  A Python
measurement dict is an association list `String × ℚ`; a dict access
`measurements["k"]` that may raise `KeyError` is `getM`, returning `Option ℚ`,
and functions performing such accesses return `Option` results (`none` models
the raised `KeyError`).  Matplotlib `Path(vertices, codes)` objects are the
structure `MplPath`.  The on-screen figure drawing is not modelled; the seam
allowance vertex computation inside `plot_pattern` (the only geometric
computation there) is `plot_pattern_seam_points`.  The ezdxf drawing document
created by `generate_dxf_from_points` is modelled by `DxfDoc`, recording the
layers, the closed polyline, the circle markers and the text entities that the
source inserts; the final textual DXF serialization (`doc.write`, performed by
the external ezdxf library) is not modelled, and the ZIP archive of
`create_dxf_zip` is the list of its entries (name, document) in insertion
order.
-/

/-- A point in pattern-local coordinates (cm), as the Python 2-tuples. -/
abbrev Point := ℚ × ℚ

/-- The matplotlib path codes used by `src/app.py`. -/
inductive PathCode where
  | MOVETO
  | LINETO
  | CURVE3
  | CURVE4
  | CLOSEPOLY
deriving DecidableEq, Repr

/-- A matplotlib `Path(vertices, codes)` object: the vertex list (anchor and
curve-control points) plus the code list. -/
structure MplPath where
  vertices : List Point
  codes : List PathCode
deriving DecidableEq, Repr

/-- A measurement record: a JSON object mapping measurement names to numbers
(src/app.py reads it with `json.load`). -/
abbrev Measurements := List (String × ℚ)

/-- `measurements[k]` on a Python dict: `some v` when the key is present,
`none` models the `KeyError`. -/
def getM (m : Measurements) (k : String) : Option ℚ :=
  m.lookup k

/-- The nine required measurement keys (src/app.py lines 21-31). -/
def required_keys : List String :=
  ["chest", "waist", "shoulder_width", "back_length", "sleeve_length",
   "neck_circumference", "armhole_depth", "cuff_circumference", "hem_width"]

/-- `sample_measurements` (src/app.py lines 21-31). -/
def sample_measurements : Measurements :=
  [("chest", 100), ("waist", 90), ("shoulder_width", 46), ("back_length", 75),
   ("sleeve_length", 60), ("neck_circumference", 40), ("armhole_depth", 25),
   ("cuff_circumference", 20), ("hem_width", 110)]

/-- `generate_front_panel` (src/app.py lines 35-76).  Returns the pair
`(path, points)`; `0.4` is the rational `2/5`, `points + [points[0]]` is
`points ++ [points.getD 0 (0, 0)]`. -/
def generate_front_panel (measurements : Measurements) :
    Option (MplPath × List Point) := do
  let chest := (← getM measurements "chest") / 2 + 5
  let shoulder := (← getM measurements "shoulder_width") / 2
  let length ← getM measurements "back_length"
  let neck_width := (← getM measurements "neck_circumference") / 6
  let neck_depth := (← getM measurements "neck_circumference") / 12 + 2
  let armhole ← getM measurements "armhole_depth"
  let _waist := (← getM measurements "waist") / 2 + 3
  let hem := (← getM measurements "hem_width") / 2
  let points : List Point :=
    [(0, 0),
     (shoulder, 0),
     (chest, armhole),
     (chest, length * (2 / 5)),
     (hem / 2 + chest / 2, length),
     (0, length),
     (0, armhole),
     (neck_width, neck_depth)]
  let codes : List PathCode :=
    [.MOVETO, .LINETO, .LINETO, .LINETO, .LINETO, .LINETO, .LINETO,
     .CURVE3, .CURVE3]
  let path : MplPath := ⟨points ++ [points.getD 0 (0, 0)], codes⟩
  return (path, points)

/-- `generate_back_panel` (src/app.py lines 79-119). -/
def generate_back_panel (measurements : Measurements) :
    Option (MplPath × List Point) := do
  let chest := (← getM measurements "chest") / 2 + 3
  let shoulder := (← getM measurements "shoulder_width") / 2
  let length ← getM measurements "back_length"
  let neck_width := (← getM measurements "neck_circumference") / 6
  let neck_depth := (← getM measurements "neck_circumference") / 24
  let armhole ← getM measurements "armhole_depth"
  let _waist := (← getM measurements "waist") / 2 + 2
  let hem := (← getM measurements "hem_width") / 2
  let points : List Point :=
    [(0, 0),
     (shoulder, 0),
     (chest, armhole),
     (chest, length * (2 / 5)),
     (hem / 2 + chest / 2, length),
     (0, length),
     (0, armhole),
     (neck_width, neck_depth)]
  let codes : List PathCode :=
    [.MOVETO, .LINETO, .LINETO, .LINETO, .LINETO, .LINETO, .LINETO,
     .CURVE3, .CURVE3]
  let path : MplPath := ⟨points ++ [points.getD 0 (0, 0)], codes⟩
  return (path, points)

/-- `generate_sleeve` (src/app.py lines 122-175).  `1.5` is `3/2`. -/
def generate_sleeve (measurements : Measurements) :
    Option (MplPath × List Point) := do
  let sleeve_length ← getM measurements "sleeve_length"
  let armhole := (← getM measurements "armhole_depth") * 2
  let _cuff := (← getM measurements "cuff_circumference") + 2
  let cap_height := armhole / 3
  let sleeve_width := armhole / 2 + 5
  let points : List Point :=
    [(0, 0),
     (sleeve_width / 2, cap_height),
     (sleeve_width / 3, sleeve_length),
     ((-sleeve_width) / 3, sleeve_length),
     ((-sleeve_width) / 2, cap_height)]
  let codes : List PathCode :=
    [.MOVETO, .CURVE4, .CURVE4, .CURVE4, .LINETO, .LINETO, .LINETO,
     .CURVE4, .CURVE4, .CURVE4]
  let control_points : List Point :=
    [points.getD 0 (0, 0),
     (sleeve_width / 4, cap_height / 3),
     (sleeve_width / 2, cap_height / (3 / 2)),
     points.getD 1 (0, 0),
     points.getD 2 (0, 0),
     points.getD 3 (0, 0),
     points.getD 4 (0, 0),
     ((-sleeve_width) / 2, cap_height / (3 / 2)),
     ((-sleeve_width) / 4, cap_height / 3),
     points.getD 0 (0, 0)]
  let path : MplPath := ⟨control_points, codes⟩
  return (path, points)

/-- `generate_collar` (src/app.py lines 178-205). -/
def generate_collar (measurements : Measurements) :
    Option (MplPath × List Point) := do
  let neck ← getM measurements "neck_circumference"
  let collar_length := neck + 2
  let collar_width : ℚ := 5
  let points : List Point :=
    [(0, 0),
     (collar_length, 0),
     (collar_length, collar_width),
     (0, collar_width)]
  let codes : List PathCode :=
    [.MOVETO, .LINETO, .LINETO, .LINETO, .CLOSEPOLY]
  let path : MplPath := ⟨points ++ [(0, 0)], codes⟩
  return (path, points)

/-- `generate_cuff` (src/app.py lines 208-235). -/
def generate_cuff (measurements : Measurements) :
    Option (MplPath × List Point) := do
  let cuff_circumference ← getM measurements "cuff_circumference"
  let cuff_length := cuff_circumference + 2
  let cuff_width : ℚ := 6
  let points : List Point :=
    [(0, 0),
     (cuff_length, 0),
     (cuff_length, cuff_width),
     (0, cuff_width)]
  let codes : List PathCode :=
    [.MOVETO, .LINETO, .LINETO, .LINETO, .CLOSEPOLY]
  let path : MplPath := ⟨points ++ [(0, 0)], codes⟩
  return (path, points)

/-- The fixed seam allowance margin `seam_allowance = 1.5` cm inside
`plot_pattern` (src/app.py line 256). -/
def seam_allowance : ℚ := 3 / 2

/-- The seam-allowance vertex list built inside `plot_pattern`
(src/app.py lines 257-260): for `i, p in enumerate(points)` the pair
`(p[0] + seam_allowance if i != len(points) - 1 else p[0],
  p[1] + seam_allowance if i != len(points) - 1 else p[1])`, followed by the
appended `(points[0][0] + seam_allowance, points[0][1] + seam_allowance)`. -/
def plot_pattern_seam_points (points : List Point) : List Point :=
  points.enum.map (fun ip =>
    (if ip.1 ≠ points.length - 1 then ip.2.1 + seam_allowance else ip.2.1,
     if ip.1 ≠ points.length - 1 then ip.2.2 + seam_allowance else ip.2.2))
  ++ [((points.getD 0 (0, 0)).1 + seam_allowance,
       (points.getD 0 (0, 0)).2 + seam_allowance)]

/-- One element of the `pattern_data` list returned by
`generate_all_patterns`: a dict with a name and the piece's anchor points. -/
structure PatternPiece where
  name : String
  points : List Point
deriving DecidableEq, Repr

/-- `generate_all_patterns` (src/app.py lines 267-301), restricted to the
returned `pattern_data` list (the matplotlib figure is presentation only and
carries no data beyond the outlines already in the list). -/
def generate_all_patterns (measurements : Measurements) :
    Option (List PatternPiece) := do
  let front ← generate_front_panel measurements
  let back ← generate_back_panel measurements
  let sleeve ← generate_sleeve measurements
  let collar ← generate_collar measurements
  let cuff ← generate_cuff measurements
  return [⟨"front_panel", front.2⟩, ⟨"back_panel", back.2⟩,
          ⟨"sleeve", sleeve.2⟩, ⟨"collar", collar.2⟩, ⟨"cuff", cuff.2⟩]

/-- A text entity added by `generate_dxf_from_points`. -/
structure DxfText where
  text : String
  height : ℚ
  layer : String
  color : Nat
  insert : Point
deriving DecidableEq, Repr

/-- A circle entity added by `generate_dxf_from_points`. -/
structure DxfCircle where
  center : Point
  radius : ℚ
  layer : String
  color : Nat
deriving DecidableEq, Repr

/-- The drawing document produced by `generate_dxf_from_points`: its layers,
the closed pattern polyline, the point markers and the text entities.  The
textual R2010 serialization done by the external ezdxf library is not
modelled. -/
structure DxfDoc where
  layers : List (String × Nat)
  polyline : List Point
  polyline_closed : Bool
  circles : List DxfCircle
  texts : List DxfText
deriving DecidableEq, Repr

/-- `max(p[1] for p in points)` for nonempty `points` (Python `max` raises on
an empty sequence; the source only applies it to nonempty point lists). -/
def maxSnd (points : List Point) : ℚ :=
  (points.map Prod.snd).foldr max ((points.getD 0 (0, 0)).2)

/-- `min(p[1] for p in points)` for nonempty `points`. -/
def minSnd (points : List Point) : ℚ :=
  (points.map Prod.snd).foldr min ((points.getD 0 (0, 0)).2)

/-- `generate_dxf_from_points` (src/app.py lines 304-357), modelled down to
the entity level: `0.5`, `0.8`, `0.6` are `1/2`, `4/5`, `3/5`; the f-strings
`"P" + str(i)`, `filename.upper() + " PATTERN"` use `toString`/`toUpper`.
The unused `add_seam_allowance` parameter is kept from the source. -/
def generate_dxf_from_points (points : List Point) (filename : String)
    (add_seam_allowance : Bool := true) : DxfDoc :=
  { layers := [("PATTERN_OUTLINE", 1), ("POINTS", 5), ("TEXT", 3)],
    polyline := points,
    polyline_closed := true,
    circles := points.map (fun p => ⟨p, 1 / 2, "POINTS", 5⟩),
    texts :=
      (points.enum.map (fun ip =>
        ⟨"P" ++ toString ip.1, 4 / 5, "TEXT", 3,
         (ip.2.1 + 3 / 5, ip.2.2 + 3 / 5)⟩))
      ++ [⟨filename.toUpper ++ " PATTERN", 2, "TEXT", 2,
           ((points.getD 0 (0, 0)).1, maxSnd points + 5)⟩,
          ⟨"NOTE: ADD 1.5cm SEAM ALLOWANCE", 1, "TEXT", 2,
           ((points.getD 0 (0, 0)).1, minSnd points - 5)⟩] }

/-- `create_dxf_zip` (src/app.py lines 360-372): the ZIP archive as the list
of its entries in insertion order.  The `float(..)` conversion of
`clean_points` is the identity in this rational model. -/
def create_dxf_zip (patterns : List PatternPiece) : List (String × DxfDoc) :=
  patterns.map (fun pattern =>
    (pattern.name ++ ".dxf",
     generate_dxf_from_points (pattern.points.map (fun p => (p.1, p.2)))
       pattern.name))

/-- Mirror about the vertical axis through the origin (the sleeve cap apex):
`(x, y) ↦ (-x, y)`. -/
def mirrorX (p : Point) : Point := (-p.1, p.2)

/-- Displacement of a point by the fixed seam allowance on both axes,
`(x, y) ↦ (x + 1.5, y + 1.5)`. -/
def offsetPoint (p : Point) : Point :=
  (p.1 + seam_allowance, p.2 + seam_allowance)

/-- Helper for the seam-allowance computation: mapping the branch of the list
comprehension of `plot_pattern` over `enumFrom k l` offsets every element of
`l` except the last one, which is kept unchanged, provided the comparison
bound `n` equals `k` plus the length of `l`. -/
lemma seam_map_enumFrom (l : List Point) :
    ∀ (k n : ℕ) (h : l ≠ []), k + l.length = n →
    (List.enumFrom k l).map (fun ip =>
      (if ip.1 ≠ n - 1 then ip.2.1 + seam_allowance else ip.2.1,
       if ip.1 ≠ n - 1 then ip.2.2 + seam_allowance else ip.2.2)) =
    l.dropLast.map offsetPoint ++ [l.getLast h] := by
  induction l with
  | nil => intro k n h _; exact absurd rfl h
  | cons p t ih =>
    intro k n h hn
    cases t with
    | nil =>
      simp only [List.length_cons, List.length_nil] at hn
      have hk : k = n - 1 := by omega
      simp [List.enumFrom, hk]
    | cons q t2 =>
      have hq : q :: t2 ≠ [] := List.cons_ne_nil q t2
      have hk : k ≠ n - 1 := by
        simp only [List.length_cons] at hn; omega
      have hrec := ih (k + 1) n hq
        (by simp only [List.length_cons] at hn ⊢; omega)
      simp only [List.enumFrom_cons, List.map_cons] at hrec ⊢
      rw [hrec, List.dropLast_cons₂, List.map_cons, List.getLast_cons hq]
      simp [offsetPoint, hk]

/-- Claim C1, amended: the seam-allowance path computed in `plot_pattern`
offsets every anchor point except the last one by `seam_allowance` on both
axes, leaves the last anchor point unchanged at its base coordinates, and
appends a closing point equal to the first point offset by `seam_allowance`,
computed independently. -/
theorem C1_seam_offset (points : List Point) (h : points ≠ []) :
    plot_pattern_seam_points points =
      points.dropLast.map offsetPoint ++
        [points.getLast h, offsetPoint (points.getD 0 (0, 0))] := by
  have hm := seam_map_enumFrom points 0 points.length h (by omega)
  simp only [plot_pattern_seam_points, List.enum, hm, List.append_assoc]
  rfl

/-- Claim C1 counterexample: on the collar outline of the sample record, the
seam path is not what the claim states (every non-closing anchor point offset
by the margin, plus the offset closing point): the last anchor point `(0, 5)`
is emitted unchanged. -/
theorem C1_counterexample :
    (generate_collar sample_measurements).map
      (fun r => plot_pattern_seam_points r.2) ≠
    (generate_collar sample_measurements).map
      (fun r => r.2.map offsetPoint ++ [offsetPoint (r.2.getD 0 (0, 0))]) := by
  simp [generate_collar, getM, sample_measurements, List.lookup,
    plot_pattern_seam_points, List.enum, List.enumFrom, offsetPoint,
    seam_allowance]

/-- Claim C1 witness: the amended statement evaluated on the collar outline
of the sample record. -/
theorem C1_witness :
    plot_pattern_seam_points [((0 : ℚ), (0 : ℚ)), (42, 0), (42, 5), (0, 5)] =
      [((3 : ℚ)/2, (3 : ℚ)/2), (87/2, 3/2), (87/2, 13/2), (0, 5), (3/2, 3/2)] := by
  rw [C1_seam_offset [((0 : ℚ), (0 : ℚ)), (42, 0), (42, 5), (0, 5)]
    (List.cons_ne_nil _ _)]
  simp [offsetPoint, seam_allowance]
  norm_num

/-- Claim C2 counterexample: on the sample record the distance between the
two cuff corner points of the sleeve outline is `20`, while
`cuff_circumference + 2 = 22`: the derived `cuff` quantity is never used for
the cuff corner points. -/
theorem C2_counterexample :
    (generate_sleeve sample_measurements).map
      (fun r => (r.2.getD 2 (0, 0)).1 - (r.2.getD 3 (0, 0)).1) ≠
    (getM sample_measurements "cuff_circumference").map (fun c => c + 2) := by
  simp [generate_sleeve, getM, sample_measurements, List.lookup]
  norm_num

/-- Claim C2, amended: the distance between the two cuff corner points of the
sleeve outline equals `2 * sleeve_width / 3` with
`sleeve_width = (armhole_depth * 2) / 2 + 5`, independent of
`cuff_circumference` (the derived `cuff = cuff_circumference + 2` quantity is
computed but unused). -/
theorem C2_amended (m : Measurements) (a : ℚ)
    (hs : (generate_sleeve m).isSome)
    (ha : getM m "armhole_depth" = some a) :
    (generate_sleeve m).map
      (fun r => (r.2.getD 2 (0, 0)).1 - (r.2.getD 3 (0, 0)).1) =
    some (2 * (a * 2 / 2 + 5) / 3) := by
  rcases h1 : getM m "sleeve_length" with _ | sl
  · simp [generate_sleeve, h1] at hs
  rcases h2 : getM m "cuff_circumference" with _ | cc
  · simp [generate_sleeve, h1, ha, h2] at hs
  simp [generate_sleeve, h1, ha, h2]
  ring

/-- Claim C2 witness: the amended statement at the sample record, where
`armhole_depth = 25`. -/
theorem C2_witness :
    (generate_sleeve sample_measurements).map
      (fun r => (r.2.getD 2 (0, 0)).1 - (r.2.getD 3 (0, 0)).1) =
    some (2 * ((25 : ℚ) * 2 / 2 + 5) / 3) :=
  C2_amended sample_measurements 25
    (by simp [generate_sleeve, getM, sample_measurements, List.lookup])
    (by simp [getM, sample_measurements, List.lookup])

/-- Claim C3: the sleeve outline is mirror-symmetric about the vertical axis
through the cap apex: mirroring every vertex of the path (anchor and
cubic-curve control points alike) reverses the vertex list, and the anchor
points on the right side are the reflections of those on the left side. -/
theorem C3_sleeve_symmetry (m : Measurements) (r : MplPath × List Point)
    (h : generate_sleeve m = some r) :
    r.1.vertices.map mirrorX = r.1.vertices.reverse ∧
    mirrorX (r.2.getD 0 (0, 0)) = r.2.getD 0 (0, 0) ∧
    mirrorX (r.2.getD 1 (0, 0)) = r.2.getD 4 (0, 0) ∧
    mirrorX (r.2.getD 2 (0, 0)) = r.2.getD 3 (0, 0) := by
  rcases h1 : getM m "sleeve_length" with _ | sl
  · simp [generate_sleeve, h1] at h
  rcases h2 : getM m "armhole_depth" with _ | ar
  · simp [generate_sleeve, h1, h2] at h
  rcases h3 : getM m "cuff_circumference" with _ | cc
  · simp [generate_sleeve, h1, h2, h3] at h
  simp [generate_sleeve, h1, h2, h3] at h
  subst h
  refine ⟨?_, ?_, ?_, ?_⟩ <;> simp [mirrorX] <;> ring_nf <;> norm_num

/-- Claim C3 witness: the symmetry statement evaluated at the sleeve built
from the sample record. -/
theorem C3_witness :
    ((generate_sleeve sample_measurements).getD (⟨[], []⟩, [])).1.vertices.map
        mirrorX =
      ((generate_sleeve sample_measurements).getD (⟨[], []⟩, [])).1.vertices.reverse ∧
    mirrorX (((generate_sleeve sample_measurements).getD (⟨[], []⟩, [])).2.getD 0 (0, 0)) =
      ((generate_sleeve sample_measurements).getD (⟨[], []⟩, [])).2.getD 0 (0, 0) ∧
    mirrorX (((generate_sleeve sample_measurements).getD (⟨[], []⟩, [])).2.getD 1 (0, 0)) =
      ((generate_sleeve sample_measurements).getD (⟨[], []⟩, [])).2.getD 4 (0, 0) ∧
    mirrorX (((generate_sleeve sample_measurements).getD (⟨[], []⟩, [])).2.getD 2 (0, 0)) =
      ((generate_sleeve sample_measurements).getD (⟨[], []⟩, [])).2.getD 3 (0, 0) :=
  C3_sleeve_symmetry sample_measurements
    ((generate_sleeve sample_measurements).getD (⟨[], []⟩, []))
    (by simp [generate_sleeve, getM, sample_measurements, List.lookup])

/-- Claim C4: for every measurement record containing all nine required keys
with positive values, the five builders return anchor-point lists of fixed
sizes: front and back panel 8 points, sleeve 5, collar and cuff 4. -/
theorem C4_point_counts (m : Measurements)
    (h : ∀ k ∈ required_keys,
      (getM m k).isSome ∧ 0 < (getM m k).getD 0) :
    (generate_front_panel m).map (fun r => r.2.length) = some 8 ∧
    (generate_back_panel m).map (fun r => r.2.length) = some 8 ∧
    (generate_sleeve m).map (fun r => r.2.length) = some 5 ∧
    (generate_collar m).map (fun r => r.2.length) = some 4 ∧
    (generate_cuff m).map (fun r => r.2.length) = some 4 := by
  obtain ⟨c, hc⟩ := Option.isSome_iff_exists.mp (h "chest" (by decide)).1
  obtain ⟨w, hw⟩ := Option.isSome_iff_exists.mp (h "waist" (by decide)).1
  obtain ⟨s, hs⟩ := Option.isSome_iff_exists.mp (h "shoulder_width" (by decide)).1
  obtain ⟨b, hb⟩ := Option.isSome_iff_exists.mp (h "back_length" (by decide)).1
  obtain ⟨sl, hsl⟩ := Option.isSome_iff_exists.mp (h "sleeve_length" (by decide)).1
  obtain ⟨n, hn⟩ := Option.isSome_iff_exists.mp (h "neck_circumference" (by decide)).1
  obtain ⟨a, ha⟩ := Option.isSome_iff_exists.mp (h "armhole_depth" (by decide)).1
  obtain ⟨cu, hcu⟩ := Option.isSome_iff_exists.mp (h "cuff_circumference" (by decide)).1
  obtain ⟨he, hhe⟩ := Option.isSome_iff_exists.mp (h "hem_width" (by decide)).1
  refine ⟨?_, ?_, ?_, ?_, ?_⟩ <;>
    simp [generate_front_panel, generate_back_panel, generate_sleeve,
      generate_collar, generate_cuff, hc, hw, hs, hb, hsl, hn, ha, hcu, hhe]

/-- Claim C4 witness: the point counts at the sample record. -/
theorem C4_witness :
    (generate_front_panel sample_measurements).map (fun r => r.2.length) = some 8 ∧
    (generate_back_panel sample_measurements).map (fun r => r.2.length) = some 8 ∧
    (generate_sleeve sample_measurements).map (fun r => r.2.length) = some 5 ∧
    (generate_collar sample_measurements).map (fun r => r.2.length) = some 4 ∧
    (generate_cuff sample_measurements).map (fun r => r.2.length) = some 4 :=
  C4_point_counts sample_measurements
    (by simp [required_keys, getM, sample_measurements, List.lookup])

/-- Claim C5: on a record lacking `neck_circumference` but containing every
other required key, the collar, front-panel and back-panel builders fail
(return `none`, the modelled `KeyError`), while the cuff and sleeve builders,
which never read that key, succeed. -/
theorem C5_missing_neck (m : Measurements)
    (hneck : getM m "neck_circumference" = none)
    (hothers : ∀ k ∈ required_keys, k ≠ "neck_circumference" →
      (getM m k).isSome) :
    generate_collar m = none ∧
    generate_front_panel m = none ∧
    generate_back_panel m = none ∧
    (generate_cuff m).isSome ∧
    (generate_sleeve m).isSome := by
  obtain ⟨c, hc⟩ := Option.isSome_iff_exists.mp (hothers "chest" (by decide) (by decide))
  obtain ⟨s, hs⟩ := Option.isSome_iff_exists.mp (hothers "shoulder_width" (by decide) (by decide))
  obtain ⟨b, hb⟩ := Option.isSome_iff_exists.mp (hothers "back_length" (by decide) (by decide))
  obtain ⟨sl, hsl⟩ := Option.isSome_iff_exists.mp (hothers "sleeve_length" (by decide) (by decide))
  obtain ⟨a, ha⟩ := Option.isSome_iff_exists.mp (hothers "armhole_depth" (by decide) (by decide))
  obtain ⟨cu, hcu⟩ := Option.isSome_iff_exists.mp (hothers "cuff_circumference" (by decide) (by decide))
  refine ⟨?_, ?_, ?_, ?_, ?_⟩ <;>
    simp [generate_collar, generate_front_panel, generate_back_panel,
      generate_cuff, generate_sleeve, hneck, hc, hs, hb, hsl, ha, hcu]

/-- Claim C5 witness: the sample record with the `neck_circumference` entry
removed. -/
theorem C5_witness :
    generate_collar [("chest", 100), ("waist", 90), ("shoulder_width", 46),
      ("back_length", 75), ("sleeve_length", 60), ("armhole_depth", 25),
      ("cuff_circumference", 20), ("hem_width", 110)] = none ∧
    generate_front_panel [("chest", 100), ("waist", 90), ("shoulder_width", 46),
      ("back_length", 75), ("sleeve_length", 60), ("armhole_depth", 25),
      ("cuff_circumference", 20), ("hem_width", 110)] = none ∧
    generate_back_panel [("chest", 100), ("waist", 90), ("shoulder_width", 46),
      ("back_length", 75), ("sleeve_length", 60), ("armhole_depth", 25),
      ("cuff_circumference", 20), ("hem_width", 110)] = none ∧
    (generate_cuff [("chest", 100), ("waist", 90), ("shoulder_width", 46),
      ("back_length", 75), ("sleeve_length", 60), ("armhole_depth", 25),
      ("cuff_circumference", 20), ("hem_width", 110)]).isSome ∧
    (generate_sleeve [("chest", 100), ("waist", 90), ("shoulder_width", 46),
      ("back_length", 75), ("sleeve_length", 60), ("armhole_depth", 25),
      ("cuff_circumference", 20), ("hem_width", 110)]).isSome :=
  C5_missing_neck _
    (by simp [getM, List.lookup])
    (by simp [required_keys, getM, List.lookup])

/-- Claim C6: for every record with `neck_circumference = n > 0` on which
both panel builders succeed, the back panel's neck depth (the y-coordinate of
anchor point 7, `n / 24`) is strictly less than the front panel's neck depth
(`n / 12 + 2`). -/
theorem C6_neck_depths (m : Measurements) (n : ℚ)
    (hn : getM m "neck_circumference" = some n) (hpos : 0 < n)
    (rf rb : MplPath × List Point)
    (hf : generate_front_panel m = some rf)
    (hb : generate_back_panel m = some rb) :
    (rb.2.getD 7 (0, 0)).2 < (rf.2.getD 7 (0, 0)).2 := by
  rcases h1 : getM m "chest" with _ | c
  · simp [generate_front_panel, h1] at hf
  rcases h2 : getM m "shoulder_width" with _ | s
  · simp [generate_front_panel, h1, h2] at hf
  rcases h3 : getM m "back_length" with _ | b
  · simp [generate_front_panel, h1, h2, h3] at hf
  rcases h4 : getM m "armhole_depth" with _ | a
  · simp [generate_front_panel, h1, h2, h3, hn, h4] at hf
  rcases h5 : getM m "waist" with _ | w
  · simp [generate_front_panel, h1, h2, h3, hn, h4, h5] at hf
  rcases h6 : getM m "hem_width" with _ | he
  · simp [generate_front_panel, h1, h2, h3, hn, h4, h5, h6] at hf
  simp [generate_front_panel, h1, h2, h3, hn, h4, h5, h6] at hf
  simp [generate_back_panel, h1, h2, h3, hn, h4, h5, h6] at hb
  subst hf
  subst hb
  simp only [List.getD, List.get?_cons_succ, List.get?_cons_zero,
    Option.getD_some]
  linarith

/-- Claim C6 witness: the neck-depth comparison at the sample record. -/
theorem C6_witness :
    ((((generate_back_panel sample_measurements).getD (⟨[], []⟩, [])).2.getD 7 (0, 0)).2 <
      (((generate_front_panel sample_measurements).getD (⟨[], []⟩, [])).2.getD 7 (0, 0)).2) :=
  C6_neck_depths sample_measurements 40
    (by simp [getM, sample_measurements, List.lookup])
    (by norm_num)
    ((generate_front_panel sample_measurements).getD (⟨[], []⟩, []))
    ((generate_back_panel sample_measurements).getD (⟨[], []⟩, []))
    (by simp [generate_front_panel, getM, sample_measurements, List.lookup])
    (by simp [generate_back_panel, getM, sample_measurements, List.lookup])

/-- Claim C7: exporting the five-piece list produced by
`generate_all_patterns` yields an archive with exactly 5 entries, named
`front_panel.dxf`, `back_panel.dxf`, `sleeve.dxf`, `collar.dxf` and
`cuff.dxf`, in that order, one per piece. -/
theorem C7_archive_names (m : Measurements) (ps : List PatternPiece)
    (h : generate_all_patterns m = some ps) :
    (create_dxf_zip ps).map Prod.fst =
      ["front_panel.dxf", "back_panel.dxf", "sleeve.dxf", "collar.dxf",
       "cuff.dxf"] ∧
    (create_dxf_zip ps).length = 5 := by
  rcases h1 : generate_front_panel m with _ | f
  · simp [generate_all_patterns, h1] at h
  rcases h2 : generate_back_panel m with _ | b
  · simp [generate_all_patterns, h1, h2] at h
  rcases h3 : generate_sleeve m with _ | sl
  · simp [generate_all_patterns, h1, h2, h3] at h
  rcases h4 : generate_collar m with _ | cl
  · simp [generate_all_patterns, h1, h2, h3, h4] at h
  rcases h5 : generate_cuff m with _ | cu
  · simp [generate_all_patterns, h1, h2, h3, h4, h5] at h
  simp [generate_all_patterns, h1, h2, h3, h4, h5] at h
  subst h
  simp [create_dxf_zip]

/-- Claim C7 witness: the archive entry names for the sample record. -/
theorem C7_witness :
    (create_dxf_zip ((generate_all_patterns sample_measurements).getD [])).map
        Prod.fst =
      ["front_panel.dxf", "back_panel.dxf", "sleeve.dxf", "collar.dxf",
       "cuff.dxf"] ∧
    (create_dxf_zip ((generate_all_patterns sample_measurements).getD [])).length = 5 :=
  C7_archive_names sample_measurements
    ((generate_all_patterns sample_measurements).getD [])
    (by simp [generate_all_patterns, generate_front_panel, generate_back_panel,
      generate_sleeve, generate_collar, generate_cuff, getM,
      sample_measurements, List.lookup])

/-- Claim C8: on the built-in sample record the front-panel builder derives
half-chest `55`, neck width `40 / 6 = 20 / 3`, neck depth
`40 / 12 + 2 = 16 / 3` and hem half-width `55`, and the collar builder
derives length `42` and width `5`; the full outputs of both builders are
evaluated. -/
theorem C8_sample_values :
    (getM sample_measurements "chest").map (fun c => c / 2 + 5) = some 55 ∧
    (getM sample_measurements "neck_circumference").map (fun x => x / 6) =
      some (20 / 3) ∧
    (getM sample_measurements "neck_circumference").map (fun x => x / 12 + 2) =
      some (16 / 3) ∧
    (getM sample_measurements "hem_width").map (fun x => x / 2) = some 55 ∧
    (getM sample_measurements "neck_circumference").map (fun x => x + 2) =
      some 42 ∧
    generate_front_panel sample_measurements =
      some (⟨[(0, 0), (23, 0), (55, 25), (55, 30), (55, 75), (0, 75), (0, 25),
              (20 / 3, 16 / 3), (0, 0)],
             [.MOVETO, .LINETO, .LINETO, .LINETO, .LINETO, .LINETO, .LINETO,
              .CURVE3, .CURVE3]⟩,
            [(0, 0), (23, 0), (55, 25), (55, 30), (55, 75), (0, 75), (0, 25),
             (20 / 3, 16 / 3)]) ∧
    generate_collar sample_measurements =
      some (⟨[(0, 0), (42, 0), (42, 5), (0, 5), (0, 0)],
             [.MOVETO, .LINETO, .LINETO, .LINETO, .CLOSEPOLY]⟩,
            [(0, 0), (42, 0), (42, 5), (0, 5)]) := by
  refine ⟨?_, ?_, ?_, ?_, ?_, ?_, ?_⟩ <;>
    simp [generate_front_panel, generate_collar, getM, sample_measurements,
      List.lookup] <;> norm_num

/-- Claim C9: every geometry builder is deterministic: calling any of the
five builders (or the full five-piece generation) twice with identical input
yields identical results. -/
theorem C9_deterministic (m1 m2 : Measurements) (h : m1 = m2) :
    generate_front_panel m1 = generate_front_panel m2 ∧
    generate_back_panel m1 = generate_back_panel m2 ∧
    generate_sleeve m1 = generate_sleeve m2 ∧
    generate_collar m1 = generate_collar m2 ∧
    generate_cuff m1 = generate_cuff m2 ∧
    generate_all_patterns m1 = generate_all_patterns m2 := by
  subst h
  exact ⟨rfl, rfl, rfl, rfl, rfl, rfl⟩

/-- Claim C9 witness: determinism at the sample record. -/
theorem C9_witness :
    generate_front_panel sample_measurements = generate_front_panel sample_measurements ∧
    generate_back_panel sample_measurements = generate_back_panel sample_measurements ∧
    generate_sleeve sample_measurements = generate_sleeve sample_measurements ∧
    generate_collar sample_measurements = generate_collar sample_measurements ∧
    generate_cuff sample_measurements = generate_cuff sample_measurements ∧
    generate_all_patterns sample_measurements = generate_all_patterns sample_measurements :=
  C9_deterministic sample_measurements sample_measurements rfl

/-- Claim C10: two records that agree on every required key except possibly
the value at `waist` (both present) produce identical front-panel and
back-panel outlines: the derived waist quantity is computed but has no
influence on the output. -/
theorem C10_waist_independent (m1 m2 : Measurements)
    (hkeys : ∀ k ∈ required_keys, k ≠ "waist" → getM m1 k = getM m2 k)
    (hw1 : (getM m1 "waist").isSome) (hw2 : (getM m2 "waist").isSome) :
    generate_front_panel m1 = generate_front_panel m2 ∧
    generate_back_panel m1 = generate_back_panel m2 := by
  obtain ⟨w1, hw1e⟩ := Option.isSome_iff_exists.mp hw1
  obtain ⟨w2, hw2e⟩ := Option.isSome_iff_exists.mp hw2
  have hc := hkeys "chest" (by decide) (by decide)
  have hs := hkeys "shoulder_width" (by decide) (by decide)
  have hl := hkeys "back_length" (by decide) (by decide)
  have hn := hkeys "neck_circumference" (by decide) (by decide)
  have ha := hkeys "armhole_depth" (by decide) (by decide)
  have hh := hkeys "hem_width" (by decide) (by decide)
  constructor <;>
    simp only [generate_front_panel, generate_back_panel, hc, hs, hl, hn, ha,
      hh, hw1e, hw2e, Option.bind_eq_bind, Option.some_bind]

/-- Claim C10 witness: the sample record against the sample record with
`waist` changed from 90 to 80. -/
theorem C10_witness :
    generate_front_panel sample_measurements =
      generate_front_panel [("chest", 100), ("waist", 80), ("shoulder_width", 46),
        ("back_length", 75), ("sleeve_length", 60), ("neck_circumference", 40),
        ("armhole_depth", 25), ("cuff_circumference", 20), ("hem_width", 110)] ∧
    generate_back_panel sample_measurements =
      generate_back_panel [("chest", 100), ("waist", 80), ("shoulder_width", 46),
        ("back_length", 75), ("sleeve_length", 60), ("neck_circumference", 40),
        ("armhole_depth", 25), ("cuff_circumference", 20), ("hem_width", 110)] :=
  C10_waist_independent sample_measurements _
    (by intro k hk hne; fin_cases hk <;>
      simp [getM, sample_measurements, List.lookup] <;> simp at hne)
    (by simp [getM, sample_measurements, List.lookup])
    (by simp [getM, List.lookup])
